import Mathlib

/-!
# network-migration-sidecar: the domain-definition hook of `migration.go`

A shallow embedding of `migration.go` and the properties of its rewrite of
tap device names.

Modelling conventions.

* A Go `string` is an immutable byte sequence: `len` counts bytes and `s[3:]`
  cuts at a byte offset. It is embedded as `List UInt8`.
* A Go `map[string]string` is embedded as a lookup function returning
  `Option`: `m k = some v` is the two-valued read `v, ok := m[k]` with
  `ok = true`, and `m k = none` is `ok = false`.
* The pointer fields `MAC *MAC` and `Target *InterfaceTarget` are embedded as
  `Option` values. The descriptor walked by the loop is the one filled in by
  `xml.Unmarshal`, which allocates every pointee afresh, so no two devices
  share a pointee and the write through `Interfaces[i].Target` only affects
  device `i`.
* A Go call either returns or panics; `Outcome` keeps the two apart.
* Logging has no effect on any returned value and is left out.
* The library calls (`xml.Unmarshal`, `json.Unmarshal`, `xml.Marshal`,
  `namescheme.CreateHashedNetworkNameScheme`) are not part of the repository
  and are taken as parameters (`Libs`).
* Fields of the library structs that `migration.go` never touches are carried
  in one field `other` of an arbitrary type.
-/

set_option linter.dupNamespace false

namespace Migration

/-- Go string: a sequence of bytes. -/
abbrev GoString := List UInt8

/-- Bytes of a string literal of the source text (its UTF-8 encoding). -/
def lit (s : String) : GoString := s.toUTF8.data.toList

/-- Go map from string to string, read with the two-valued index expression. -/
abbrev GoMap := GoString → Option GoString

/-- Result of `make(map[string]string)`: no key is present. -/
def GoMap.make : GoMap := fun _ => none

/-- Map after the assignment `m[k] = v`. -/
def GoMap.assign (m : GoMap) (k v : GoString) : GoMap :=
  fun k' => if k' = k then some v else m k'

/-- Error values and run-time panics that occur in `migration.go`. -/
inductive GoError where
  /-- Value of `fmt.Errorf("Missing --version parameter. ...")`. -/
  | missingVersion
  /-- Value of `fmt.Errorf("Version %s is not supported. ...", version, ...)`. -/
  | unsupportedVersion (version : GoString)
  /-- Error value handed back by a library call. -/
  | library (msg : GoString)
  /-- Run-time panic of the slice expression `s[3:]` when `len(s) < 3`. -/
  | sliceBounds (len : Nat)
  deriving DecidableEq, Repr

/-- A Go call either returns a value or panics. -/
inductive Outcome (α : Type) where
  | returned (a : α)
  | panicked (e : GoError)
  deriving DecidableEq, Repr

/-- Go struct `api.MAC`. -/
structure MAC where
  MAC : GoString
  deriving DecidableEq, Repr

/-- Go struct `api.InterfaceTarget`; `other` stands for its remaining fields. -/
structure InterfaceTarget (Other : Type) where
  Device : GoString
  other : Other
  deriving DecidableEq, Repr

/-- Go struct `api.Interface`; `other` stands for its remaining fields. -/
structure Interface (Other : Type) where
  MAC : Option MAC
  Target : Option (InterfaceTarget Other)
  other : Other
  deriving DecidableEq, Repr

/-- Go struct `api.Devices`; `other` stands for the non-interface devices. -/
structure Devices (Other : Type) where
  Interfaces : List (Interface Other)
  other : Other
  deriving DecidableEq, Repr

/-- Go struct `api.DomainSpec`; `other` stands for its remaining fields. -/
structure DomainSpec (Other : Type) where
  Devices : Devices Other
  other : Other
  deriving DecidableEq, Repr

/-- Go struct `v1.Network`: a logical name and its declared source. -/
structure Network (Other : Type) where
  Name : GoString
  other : Other
  deriving DecidableEq, Repr

/-- Go struct `v1.VirtualMachineInstanceNetworkInterface` (an interface status). -/
structure VirtualMachineInstanceNetworkInterface (Other : Type) where
  MAC : GoString
  Name : GoString
  other : Other
  deriving DecidableEq, Repr

/-- Go struct `v1.VirtualMachineInstanceSpec`, reduced to what is read. -/
structure VirtualMachineInstanceSpec (Other : Type) where
  Networks : List (Network Other)
  other : Other
  deriving DecidableEq, Repr

/-- Go struct `v1.VirtualMachineInstanceStatus`, reduced to what is read. -/
structure VirtualMachineInstanceStatus (Other : Type) where
  Interfaces : List (VirtualMachineInstanceNetworkInterface Other)
  other : Other
  deriving DecidableEq, Repr

/-- Go struct `v1.VirtualMachineInstance`. -/
structure VirtualMachineInstance (Other : Type) where
  Spec : VirtualMachineInstanceSpec Other
  Status : VirtualMachineInstanceStatus Other
  other : Other
  deriving DecidableEq, Repr

/-- Library calls used by `onDefineDomain`. An unmarshal call is given by the
state of its (initially zero-valued) target after the call together with the
error it returns. -/
structure Libs (Other : Type) where
  xmlUnmarshal : GoString → DomainSpec Other × Option GoError
  jsonUnmarshal : GoString → VirtualMachineInstance Other × Option GoError
  CreateHashedNetworkNameScheme : List (Network Other) → GoMap
  xmlMarshal : DomainSpec Other → GoString × Option GoError

/-! ## `generateNetworkMacMap` (lines 195-201) -/

/-- Loop `for _, v := range vmi.Status.Interfaces` of `generateNetworkMacMap`,
started from the map `networkMacMapping`. -/
def generateNetworkMacMapLoop {Other : Type} (networkMacMapping : GoMap) :
    List (VirtualMachineInstanceNetworkInterface Other) → GoMap
  | [] => networkMacMapping
  | v :: rest => generateNetworkMacMapLoop (networkMacMapping.assign v.MAC v.Name) rest

/-- Function `generateNetworkMacMap`. -/
def generateNetworkMacMap {Other : Type} (vmi : VirtualMachineInstance Other) : GoMap :=
  generateNetworkMacMapLoop GoMap.make vmi.Status.Interfaces

/-! ## The rewrite loop of `onDefineDomain` (lines 169-183) -/

/-- Expression `"tap" + hashedName[3:]` of lines 176 and 178. The slice
expression panics when `hashedName` has fewer than three bytes. -/
def newTAPIfName (hashedName : GoString) : Outcome GoString :=
  if 3 ≤ hashedName.length then
    .returned (lit "tap" ++ hashedName.drop 3)
  else
    .panicked (.sliceBounds hashedName.length)

/-- Body of the loop `for i, v := range domainSpec.Devices.Interfaces`
(lines 170-181): the state of device `i` after the iteration. -/
def rewriteInterface {Other : Type} (macMap networkMap : GoMap) (v : Interface Other) :
    Outcome (Interface Other) :=
  match v.MAC, v.Target with
  | some mac, some target =>
    match macMap mac.MAC with
    | some networkName =>
      match networkMap networkName with
      | some hashedName =>
        match newTAPIfName hashedName with
        | .returned name => .returned { v with Target := some { target with Device := name } }
        | .panicked e => .panicked e
      | none => .returned v
    | none => .returned v
  | _, _ => .returned v

/-- Loop `for i, v := range domainSpec.Devices.Interfaces` (lines 169-183):
the devices are visited in order and the first panic ends the call. -/
def rewriteLoop {Other : Type} (macMap networkMap : GoMap) :
    List (Interface Other) → Outcome (List (Interface Other))
  | [] => .returned []
  | v :: rest =>
    match rewriteInterface macMap networkMap v with
    | .panicked e => .panicked e
    | .returned v' =>
      match rewriteLoop macMap networkMap rest with
      | .panicked e => .panicked e
      | .returned rest' => .returned (v' :: rest')

/-- Descriptor `domainSpec` after the loop of lines 169-183. -/
def rewriteDomain {Other : Type} (macMap networkMap : GoMap) (domainSpec : DomainSpec Other) :
    Outcome (DomainSpec Other) :=
  match rewriteLoop macMap networkMap domainSpec.Devices.Interfaces with
  | .panicked e => .panicked e
  | .returned ifaces =>
    .returned { domainSpec with Devices := { domainSpec.Devices with Interfaces := ifaces } }

/-! ## `onDefineDomain` (lines 150-193) and `OnDefineDomain` (lines 59-69) -/

/-- Function `onDefineDomain`; the returned pair is `([]byte, error)`, a nil
slice being the empty byte sequence. -/
def onDefineDomain {Other : Type} (L : Libs Other) (vmiJSON domainXML : GoString) :
    Outcome (GoString × Option GoError) :=
  match L.xmlUnmarshal domainXML with
  | (_, some err) => .panicked err
  | (domainSpec, none) =>
    -- the error of json.Unmarshal is logged and otherwise ignored
    let vmi := (L.jsonUnmarshal vmiJSON).1
    let networkMap := L.CreateHashedNetworkNameScheme vmi.Spec.Networks
    let macMap := generateNetworkMacMap vmi
    match rewriteDomain macMap networkMap domainSpec with
    | .panicked e => .panicked e
    | .returned domainSpec' =>
      match L.xmlMarshal domainSpec' with
      | (_, some err) => .panicked err
      | (newDomainXML, none) => .returned (newDomainXML, none)

/-- Go struct `hooksV1alpha2.OnDefineDomainParams`. -/
structure OnDefineDomainParams where
  Vmi : GoString
  DomainXML : GoString
  deriving DecidableEq, Repr

/-- Go struct `hooksV1alpha2.OnDefineDomainResult`. -/
structure OnDefineDomainResult where
  DomainXML : GoString
  deriving DecidableEq, Repr

/-- Method `v1Alpha2Server.OnDefineDomain`; the returned pair is
`(*OnDefineDomainResult, error)`. -/
def v1Alpha2Server.OnDefineDomain {Other : Type} (L : Libs Other)
    (params : OnDefineDomainParams) : Outcome (Option OnDefineDomainResult × Option GoError) :=
  match onDefineDomain L params.Vmi params.DomainXML with
  | .panicked e => .panicked e
  | .returned (newDomainXML, err) =>
    match err with
    | some err => .returned (none, some err)
    | none => .returned (some { DomainXML := newDomainXML }, none)

/-! ## `parseCommandLineArgs` (lines 77-99) -/

/-- Slice `supportedVersions` of `parseCommandLineArgs`. -/
def supportedVersions : List GoString := [lit "v1alpha1", lit "v1alpha2"]

/-- Loop of lines 88-93: the value of `supported` after the loop. -/
def supportedLoop (version : GoString) : List GoString → Bool
  | [] => false
  | v :: rest => if v = version then true else supportedLoop version rest

/-- Function `parseCommandLineArgs` from the point where `pflag.Parse` has
stored the flag in `version` (the empty string when the flag is not given). -/
def parseCommandLineArgs (version : GoString) : GoString × Option GoError :=
  if version = [] then
    ([], some .missingVersion)
  else if !supportedLoop version supportedVersions then
    ([], some (.unsupportedVersion version))
  else
    (version, none)

/-! ## Scenario data used to exercise the definitions -/

/-- Hardware address `52:54:00:00:00:01`. -/
def mac01 : GoString := lit "52:54:00:00:00:01"

/-- Instance model with the single status `(52:54:00:00:00:01, default)`. -/
def scenarioVMI : VirtualMachineInstance Unit :=
  { Spec := { Networks := [{ Name := lit "default", other := () }], other := () }
    Status := { Interfaces := [{ MAC := mac01, Name := lit "default", other := () }], other := () }
    other := () }

/-- Naming scheme `default -> pod1234567`. -/
def scenarioScheme : GoMap := GoMap.make.assign (lit "default") (lit "pod1234567")

/-- Interface `(mac 52:54:00:00:00:01, target vnet0)`. -/
def scenarioInterface : Interface Unit :=
  { MAC := some { MAC := mac01 }, Target := some { Device := lit "vnet0", other := () }, other := () }

/-- Interface with no hardware address and target `vnet0`. -/
def scenarioInterfaceNoMAC : Interface Unit :=
  { MAC := none, Target := some { Device := lit "vnet0", other := () }, other := () }

/-- Domain descriptor holding the given interfaces and nothing else. -/
def domainOf (ifaces : List (Interface Unit)) : DomainSpec Unit :=
  { Devices := { Interfaces := ifaces, other := () }, other := () }

/-- Naming scheme `default -> ab`, a hashed name of two bytes. -/
def shortScheme : GoMap := GoMap.make.assign (lit "default") (lit "ab")

/-- Interface `(mac 52:54:00:00:00:01, target eth7)`. -/
def scenarioInterfaceOtherName : Interface Unit :=
  { MAC := some { MAC := mac01 }, Target := some { Device := lit "eth7", other := () }, other := () }

/-- Statuses `(52:54:00:00:00:01, first)`, `(52:54:00:00:00:02, second)`,
`(52:54:00:00:00:01, third)`: the first hardware address occurs twice. -/
def duplicateStatuses : List (VirtualMachineInstanceNetworkInterface Unit) :=
  [{ MAC := mac01, Name := lit "first", other := () },
   { MAC := lit "52:54:00:00:00:02", Name := lit "second", other := () },
   { MAC := mac01, Name := lit "third", other := () }]

/-- Zero value of the instance model. -/
def zeroVMI : VirtualMachineInstance Unit :=
  { Spec := { Networks := [], other := () }
    Status := { Interfaces := [], other := () }
    other := () }

/-- Instance descriptor text whose `status.phase` is a number where the Go
field is a string: `json.Unmarshal` skips that field, fills in the rest of the
target and returns an `UnmarshalTypeError`. -/
def typeErrorVMIJSON : GoString :=
  lit ("\x7b\"spec\":\x7b\"networks\":" ++
    "[\x7b\"name\":\"default\",\"multus\":\x7b\"networkName\":\"nad\"\x7d\x7d]\x7d," ++
    "\"status\":\x7b\"phase\":5,\"interfaces\":" ++
    "[\x7b\"mac\":\"52:54:00:00:00:01\",\"name\":\"default\"\x7d]\x7d\x7d")

/-- Instance descriptor text that is not well-formed JSON: `json.Unmarshal`
rejects it before touching the target. -/
def syntaxErrorVMIJSON : GoString := lit "\x7b"

/-- Well-formed instance descriptor text of the scenario. -/
def scenarioVMIJSON : GoString :=
  lit ("\x7b\"spec\":\x7b\"networks\":" ++
    "[\x7b\"name\":\"default\",\"multus\":\x7b\"networkName\":\"nad\"\x7d\x7d]\x7d," ++
    "\"status\":\x7b\"interfaces\":" ++
    "[\x7b\"mac\":\"52:54:00:00:00:01\",\"name\":\"default\"\x7d]\x7d\x7d")

/-- Domain descriptor text with the interface `(52:54:00:00:00:01, vnet0)`. -/
def scenarioDomainXML : GoString :=
  lit ("<domain><devices><interface type=\"ethernet\">" ++
    "<mac address=\"52:54:00:00:00:01\"/><target dev=\"vnet0\"/>" ++
    "</interface></devices></domain>")

/-- Domain descriptor text cut off in the middle of its first tag. -/
def truncatedDomainXML : GoString := lit "<domain"

/-- Target device names of a list of interfaces, one after the other. -/
def deviceNames : List (Interface Unit) → GoString
  | [] => []
  | v :: rest =>
    (match v.Target with
      | some target => target.Device
      | none => []) ++ deviceNames rest

/-- Naming scheme of the instance whose only network is the secondary network
`default`: the name scheme package maps it to `pod` followed by the first
eleven hexadecimal digits of the SHA-256 digest of the network name. -/
def hashedScheme : GoMap := GoMap.make.assign (lit "default") (lit "pod37a8eec1ce1")

/-- Library behaviour on the texts above, used to run `onDefineDomain` on
concrete inputs: `xmlUnmarshal` and `jsonUnmarshal` answer as the Go decoders
do on these texts, the naming scheme is `hashedScheme` when a network is
declared and empty otherwise, and the encoder stand-in writes the target
device names one after the other. -/
def scenarioLibs : Libs Unit where
  xmlUnmarshal := fun domainXML =>
    if domainXML = truncatedDomainXML then
      (domainOf [], some (.library (lit "XML syntax error on line 1: unexpected EOF")))
    else if domainXML = scenarioDomainXML then
      (domainOf [scenarioInterface], none)
    else
      (domainOf [], none)
  jsonUnmarshal := fun vmiJSON =>
    if vmiJSON = typeErrorVMIJSON then
      (scenarioVMI, some (.library (lit ("json: cannot unmarshal number into Go struct " ++
        "field VirtualMachineInstanceStatus.status.phase of type v1.VirtualMachineInstancePhase"))))
    else if vmiJSON = syntaxErrorVMIJSON then
      (zeroVMI, some (.library (lit "unexpected end of JSON input")))
    else if vmiJSON = scenarioVMIJSON then
      (scenarioVMI, none)
    else
      (zeroVMI, none)
  CreateHashedNetworkNameScheme := fun networks =>
    match networks with
    | [] => GoMap.make
    | _ :: _ => hashedScheme
  xmlMarshal := fun domainSpec => (deviceNames domainSpec.Devices.Interfaces, none)

/-! ## Lemmas on the loop body and the loop -/

section Lemmas

variable {Other : Type}

theorem newTAPIfName_of_le {hashedName : GoString} (h : 3 ≤ hashedName.length) :
    newTAPIfName hashedName = .returned (lit "tap" ++ hashedName.drop 3) := by
  simp [newTAPIfName, h]

theorem newTAPIfName_of_lt {hashedName : GoString} (h : hashedName.length < 3) :
    newTAPIfName hashedName = .panicked (.sliceBounds hashedName.length) := by
  simp [newTAPIfName, Nat.not_le.mpr h]

/-- The loop body on a device whose chain resolves to `hashedName`. -/
theorem rewriteInterface_resolved (macMap networkMap : GoMap) (v : Interface Other)
    {mac : MAC} {target : InterfaceTarget Other} {networkName hashedName : GoString}
    (hmac : v.MAC = some mac) (htarget : v.Target = some target)
    (hnet : macMap mac.MAC = some networkName)
    (hhash : networkMap networkName = some hashedName) :
    rewriteInterface macMap networkMap v =
      match newTAPIfName hashedName with
      | .returned name => .returned { v with Target := some { target with Device := name } }
      | .panicked e => .panicked e := by
  simp [rewriteInterface, hmac, htarget, hnet, hhash]

/-- The loop body on a device whose chain does not resolve. -/
theorem rewriteInterface_unresolved (macMap networkMap : GoMap) (v : Interface Other)
    (h : v.MAC = none ∨ v.Target = none ∨
      (∃ mac, v.MAC = some mac ∧ macMap mac.MAC = none) ∨
      (∃ mac networkName, v.MAC = some mac ∧ macMap mac.MAC = some networkName ∧
        networkMap networkName = none)) :
    rewriteInterface macMap networkMap v = .returned v := by
  unfold rewriteInterface
  rcases h with h | h | ⟨mac, h, hm⟩ | ⟨mac, networkName, h, hm, hn⟩
  · simp [h]
  · cases hM : v.MAC <;> simp [h]
  · cases hT : v.Target <;> simp [h, hm]
  · cases hT : v.Target <;> simp [h, hm, hn]

/-- Every device returned by the loop body is the input device, or the input
device with the device name of its target replaced by a derived tap name. -/
theorem rewriteInterface_cases (macMap networkMap : GoMap) (v v' : Interface Other)
    (h : rewriteInterface macMap networkMap v = .returned v') :
    v' = v ∨ ∃ (target : InterfaceTarget Other) (hashedName : GoString),
      v.Target = some target ∧ 3 ≤ hashedName.length ∧
      v' = { v with Target := some { target with Device := lit "tap" ++ hashedName.drop 3 } } := by
  cases hM : v.MAC with
  | none =>
    rw [rewriteInterface_unresolved macMap networkMap v (Or.inl hM)] at h
    cases h; exact Or.inl rfl
  | some mac =>
    cases hT : v.Target with
    | none =>
      rw [rewriteInterface_unresolved macMap networkMap v (Or.inr (Or.inl hT))] at h
      cases h; exact Or.inl rfl
    | some target =>
      cases hN : macMap mac.MAC with
      | none =>
        rw [rewriteInterface_unresolved macMap networkMap v
          (Or.inr (Or.inr (Or.inl ⟨mac, hM, hN⟩)))] at h
        cases h; exact Or.inl rfl
      | some networkName =>
        cases hH : networkMap networkName with
        | none =>
          rw [rewriteInterface_unresolved macMap networkMap v
            (Or.inr (Or.inr (Or.inr ⟨mac, networkName, hM, hN, hH⟩)))] at h
          cases h; exact Or.inl rfl
        | some hashedName =>
          rw [rewriteInterface_resolved macMap networkMap v hM hT hN hH] at h
          by_cases hl : 3 ≤ hashedName.length
          · rw [newTAPIfName_of_le hl] at h
            simp only [Outcome.returned.injEq] at h
            exact Or.inr ⟨target, hashedName, rfl, hl, by rw [← h, hM]⟩
          · rw [newTAPIfName_of_lt (Nat.lt_of_not_le hl)] at h
            cases h

/-- The loop returns `out` exactly when `out` lists, in order, what the loop
body returns on each device. -/
theorem rewriteLoop_returned_iff (macMap networkMap : GoMap) (l out : List (Interface Other)) :
    rewriteLoop macMap networkMap l = .returned out ↔
      List.Forall₂ (fun v v' => rewriteInterface macMap networkMap v = .returned v') l out := by
  induction l generalizing out with
  | nil =>
    cases out <;> simp [rewriteLoop]
  | cons v rest ih =>
    unfold rewriteLoop
    cases hv : rewriteInterface macMap networkMap v with
    | panicked e =>
      simp only []
      constructor
      · intro h; cases h
      · intro h
        cases h with
        | cons h1 _ => rw [hv] at h1; cases h1
    | returned v' =>
      simp only []
      cases hr : rewriteLoop macMap networkMap rest with
      | panicked e =>
        simp only []
        constructor
        · intro h; cases h
        · intro h
          cases h with
          | cons _ h2 => rw [← ih, hr] at h2; cases h2
      | returned rest' =>
        simp only []
        constructor
        · intro h
          cases h
          exact List.Forall₂.cons hv ((ih rest').mp hr)
        · intro h
          cases h with
          | cons h1 h2 =>
            rw [hv] at h1
            rw [← ih, hr] at h2
            cases h1; cases h2; rfl

/-- Position-wise reading of a completed loop. -/
theorem rewriteLoop_getElem? (macMap networkMap : GoMap) (l out : List (Interface Other))
    (h : rewriteLoop macMap networkMap l = .returned out) (i : Nat) (v : Interface Other)
    (hi : l[i]? = some v) :
    ∃ v', out[i]? = some v' ∧ rewriteInterface macMap networkMap v = .returned v' := by
  rw [rewriteLoop_returned_iff] at h
  induction h generalizing i with
  | nil => simp at hi
  | cons h1 _ ih =>
    cases i with
    | zero =>
      simp only [List.getElem?_cons_zero, Option.some.injEq] at hi
      subst hi
      exact ⟨_, by simp, h1⟩
    | succ j =>
      simp only [List.getElem?_cons_succ] at hi ⊢
      exact ih j hi

theorem rewriteLoop_length (macMap networkMap : GoMap) (l out : List (Interface Other))
    (h : rewriteLoop macMap networkMap l = .returned out) : out.length = l.length := by
  rw [rewriteLoop_returned_iff] at h
  exact h.length_eq.symm

/-- The descriptor returned by `rewriteDomain` in terms of the loop. -/
theorem rewriteDomain_returned_iff (macMap networkMap : GoMap) (domainSpec out : DomainSpec Other) :
    rewriteDomain macMap networkMap domainSpec = .returned out ↔
      rewriteLoop macMap networkMap domainSpec.Devices.Interfaces =
          .returned out.Devices.Interfaces ∧
        out.Devices.other = domainSpec.Devices.other ∧ out.other = domainSpec.other := by
  unfold rewriteDomain
  cases hl : rewriteLoop macMap networkMap domainSpec.Devices.Interfaces with
  | panicked e => simp
  | returned ifaces =>
    simp only [Outcome.returned.injEq]
    constructor
    · intro h
      subst h
      simp
    · rintro ⟨h1, h2, h3⟩
      obtain ⟨⟨oi, oo⟩, o⟩ := out
      simp only at h1 h2 h3
      subst h1 h2 h3
      rfl

/-- What the loop body leaves untouched on a device. -/
theorem rewriteInterface_frame (macMap networkMap : GoMap) (v v' : Interface Other)
    (h : rewriteInterface macMap networkMap v = .returned v') :
    v'.MAC = v.MAC ∧ v'.other = v.other ∧ v'.Target.isSome = v.Target.isSome ∧
      v'.Target.map (fun t => t.other) = v.Target.map (fun t => t.other) := by
  rcases rewriteInterface_cases macMap networkMap v v' h with h | ⟨target, hashedName, ht, _, h⟩
  · subst h
    exact ⟨rfl, rfl, rfl, rfl⟩
  · subst h
    simp [ht]

/-- Either the chain of a device breaks at one of its four stages, or it
reaches a hashed name. -/
theorem chain_cases (macMap networkMap : GoMap) (v : Interface Other) :
    (v.MAC = none ∨ v.Target = none ∨
      (∃ mac, v.MAC = some mac ∧ macMap mac.MAC = none) ∨
      (∃ mac networkName, v.MAC = some mac ∧ macMap mac.MAC = some networkName ∧
        networkMap networkName = none)) ∨
    ∃ (mac : MAC) (target : InterfaceTarget Other) (networkName hashedName : GoString),
      v.MAC = some mac ∧ v.Target = some target ∧ macMap mac.MAC = some networkName ∧
        networkMap networkName = some hashedName := by
  cases hM : v.MAC with
  | none => exact Or.inl (Or.inl rfl)
  | some mac =>
    cases hT : v.Target with
    | none => exact Or.inl (Or.inr (Or.inl rfl))
    | some target =>
      cases hN : macMap mac.MAC with
      | none => exact Or.inl (Or.inr (Or.inr (Or.inl ⟨mac, rfl, hN⟩)))
      | some networkName =>
        cases hH : networkMap networkName with
        | none => exact Or.inl (Or.inr (Or.inr (Or.inr ⟨mac, networkName, rfl, hN, hH⟩)))
        | some hashedName => exact Or.inr ⟨mac, target, networkName, hashedName, rfl, rfl, hN, hH⟩

/-- A device whose chain reaches `hashedName` and on which the loop body
returns: the hashed name has at least three bytes and the returned device
carries the derived name. -/
theorem rewriteInterface_resolved_returned (macMap networkMap : GoMap) (v v' : Interface Other)
    {mac : MAC} {target : InterfaceTarget Other} {networkName hashedName : GoString}
    (hmac : v.MAC = some mac) (htarget : v.Target = some target)
    (hnet : macMap mac.MAC = some networkName)
    (hhash : networkMap networkName = some hashedName)
    (h : rewriteInterface macMap networkMap v = .returned v') :
    3 ≤ hashedName.length ∧
      v' = { v with Target := some { target with Device := lit "tap" ++ hashedName.drop 3 } } := by
  rw [rewriteInterface_resolved macMap networkMap v hmac htarget hnet hhash] at h
  by_cases hl : 3 ≤ hashedName.length
  · rw [newTAPIfName_of_le hl] at h
    simp only [Outcome.returned.injEq] at h
    exact ⟨hl, h.symm⟩
  · rw [newTAPIfName_of_lt (Nat.lt_of_not_le hl)] at h
    cases h

/-- The loop body returns exactly when the hashed name reached by the device,
if any, has at least three bytes. -/
theorem rewriteInterface_completes_iff (macMap networkMap : GoMap) (v : Interface Other) :
    (∃ v', rewriteInterface macMap networkMap v = .returned v') ↔
      ∀ (mac : MAC) (networkName hashedName : GoString), v.MAC = some mac →
        v.Target.isSome = true → macMap mac.MAC = some networkName →
        networkMap networkName = some hashedName → 3 ≤ hashedName.length := by
  constructor
  · rintro ⟨v', h⟩ mac networkName hashedName hM hT hN hH
    obtain ⟨target, hT'⟩ := Option.isSome_iff_exists.mp hT
    exact (rewriteInterface_resolved_returned macMap networkMap v v' hM hT' hN hH h).1
  · intro h
    rcases chain_cases macMap networkMap v with hu | ⟨mac, target, networkName, hashedName, hM, hT, hN, hH⟩
    · exact ⟨v, rewriteInterface_unresolved macMap networkMap v hu⟩
    · have hl := h mac networkName hashedName hM (by simp [hT]) hN hH
      refine ⟨{ v with Target := some { target with Device := lit "tap" ++ hashedName.drop 3 } }, ?_⟩
      rw [rewriteInterface_resolved macMap networkMap v hM hT hN hH, newTAPIfName_of_le hl]

/-- The loop completes exactly when its body returns on every device. -/
theorem rewriteLoop_completes_iff (macMap networkMap : GoMap) (l : List (Interface Other)) :
    (∃ out, rewriteLoop macMap networkMap l = .returned out) ↔
      ∀ v ∈ l, ∃ v', rewriteInterface macMap networkMap v = .returned v' := by
  induction l with
  | nil => simp [rewriteLoop]
  | cons v rest ih =>
    simp only [List.forall_mem_cons, ← ih]
    constructor
    · rintro ⟨out, h⟩
      rw [rewriteLoop_returned_iff] at h
      cases h with
      | cons h1 h2 =>
        exact ⟨⟨_, h1⟩, ⟨_, (rewriteLoop_returned_iff macMap networkMap _ _).mpr h2⟩⟩
    · rintro ⟨⟨v', h1⟩, ⟨out, h2⟩⟩
      exact ⟨v' :: out, by simp [rewriteLoop, h1, h2]⟩

/-- The rewrite of a descriptor completes exactly when the loop does. -/
theorem rewriteDomain_completes_iff (macMap networkMap : GoMap) (domainSpec : DomainSpec Other) :
    (∃ out, rewriteDomain macMap networkMap domainSpec = .returned out) ↔
      ∃ ifaces, rewriteLoop macMap networkMap domainSpec.Devices.Interfaces =
        .returned ifaces := by
  unfold rewriteDomain
  cases rewriteLoop macMap networkMap domainSpec.Devices.Interfaces <;> simp

/-- The loop body returns on every device when all hashed names of the naming
scheme have at least three bytes. -/
theorem rewriteInterface_completes (macMap networkMap : GoMap)
    (hlen : ∀ networkName hashedName, networkMap networkName = some hashedName →
      3 ≤ hashedName.length) (v : Interface Other) :
    ∃ v', rewriteInterface macMap networkMap v = .returned v' :=
  (rewriteInterface_completes_iff macMap networkMap v).mpr
    (fun _ networkName hashedName _ _ _ hH => hlen networkName hashedName hH)

/-- Running the loop body on a device it has returned gives that device again. -/
theorem rewriteInterface_idem (macMap networkMap : GoMap) (v v' : Interface Other)
    (h : rewriteInterface macMap networkMap v = .returned v') :
    rewriteInterface macMap networkMap v' = .returned v' := by
  rcases chain_cases macMap networkMap v with hu | ⟨mac, target, networkName, hashedName, hM, hT, hN, hH⟩
  · rw [rewriteInterface_unresolved macMap networkMap v hu] at h
    cases h
    exact rewriteInterface_unresolved macMap networkMap v hu
  · obtain ⟨hl, hv'⟩ := rewriteInterface_resolved_returned macMap networkMap v v' hM hT hN hH h
    subst hv'
    have hr := @rewriteInterface_resolved Other macMap networkMap
      { v with Target := some { target with Device := lit "tap" ++ hashedName.drop 3 } }
      mac { target with Device := lit "tap" ++ hashedName.drop 3 } networkName hashedName
      hM rfl hN hH
    rw [hr, newTAPIfName_of_le hl]

/-- Position-wise reading of two lists related element by element. -/
theorem forall₂_getElem? {α β : Type} {R : α → β → Prop} {l₁ : List α} {l₂ : List β}
    (h : List.Forall₂ R l₁ l₂) (i : Nat) (a : α) (hi : l₁[i]? = some a) :
    ∃ b, l₂[i]? = some b ∧ R a b := by
  induction h generalizing i with
  | nil => simp at hi
  | cons h1 _ ih =>
    cases i with
    | zero =>
      simp only [List.getElem?_cons_zero, Option.some.injEq] at hi
      subst hi
      exact ⟨_, by simp, h1⟩
    | succ j =>
      simp only [List.getElem?_cons_succ] at hi ⊢
      exact ih j hi

/-- The loop of `generateNetworkMacMap` started from `m`: a key is sent to the
name of the last entry carrying it, and to its value in `m` when no entry
carries it. -/
theorem generateNetworkMacMapLoop_spec (m : GoMap)
    (l : List (VirtualMachineInstanceNetworkInterface Other)) (k name : GoString) :
    generateNetworkMacMapLoop m l k = some name ↔
      (∃ pre s post, l = pre ++ s :: post ∧ s.MAC = k ∧ s.Name = name ∧
        ∀ t ∈ post, t.MAC ≠ k) ∨
      ((∀ t ∈ l, t.MAC ≠ k) ∧ m k = some name) := by
  induction l generalizing m with
  | nil => simp [generateNetworkMacMapLoop]
  | cons v rest ih =>
    unfold generateNetworkMacMapLoop
    rw [ih]
    constructor
    · rintro (⟨pre, s, post, hl, hk, hn, hp⟩ | ⟨hr, hm⟩)
      · exact Or.inl ⟨v :: pre, s, post, by rw [hl]; rfl, hk, hn, hp⟩
      · unfold GoMap.assign at hm
        split at hm
        · rename_i hkv
          cases hm
          exact Or.inl ⟨[], v, rest, rfl, hkv.symm, rfl, hr⟩
        · rename_i hkv
          refine Or.inr ⟨?_, hm⟩
          intro t ht
          rcases List.mem_cons.mp ht with h | h
          · subst h
            exact fun h => hkv h.symm
          · exact hr t h
    · rintro (⟨pre, s, post, hl, hk, hn, hp⟩ | ⟨hr, hm⟩)
      · cases pre with
        | nil =>
          simp only [List.nil_append, List.cons.injEq] at hl
          obtain ⟨hvs, hrest⟩ := hl
          subst hvs hrest
          refine Or.inr ⟨hp, ?_⟩
          simp [GoMap.assign, hk, hn]
        | cons p pre' =>
          simp only [List.cons_append, List.cons.injEq] at hl
          exact Or.inl ⟨pre', s, post, hl.2, hk, hn, hp⟩
      · refine Or.inr ⟨fun t ht => hr t (List.mem_cons_of_mem _ ht), ?_⟩
        have hv : v.MAC ≠ k := hr v (List.mem_cons_self _ _)
        simp [GoMap.assign, Ne.symm hv, hm]

/-- A key is present after the loop of `generateNetworkMacMap` exactly when an
entry carries it or it was present before. -/
theorem generateNetworkMacMapLoop_isSome (m : GoMap)
    (l : List (VirtualMachineInstanceNetworkInterface Other)) (k : GoString) :
    (generateNetworkMacMapLoop m l k).isSome = true ↔
      (∃ s ∈ l, s.MAC = k) ∨ (m k).isSome = true := by
  induction l generalizing m with
  | nil => simp [generateNetworkMacMapLoop]
  | cons v rest ih =>
    unfold generateNetworkMacMapLoop
    rw [ih]
    unfold GoMap.assign
    by_cases hkv : k = v.MAC
    · subst hkv
      simp
    · have hvk : ¬ v.MAC = k := fun h => hkv h.symm
      simp [hkv, hvk]

end Lemmas

/-! ## Properties of the rewrite loop -/

/-- C1: a device of the descriptor whose hardware address and target are both
present, whose hardware address maps to a network name in `macMap` and whose
network name maps in `networkMap` to a hashed name of at least three bytes is
turned by the loop body into the same device with target device name
`"tap" + hashedName[3:]`, and in every descriptor returned by the loop the
device at that position carries this target device name. -/
theorem rewrite_resolved_target {Other : Type} (macMap networkMap : GoMap)
    (domainSpec : DomainSpec Other) (i : Nat) (v : Interface Other) (mac : MAC)
    (target : InterfaceTarget Other) (networkName hashedName : GoString)
    (hi : domainSpec.Devices.Interfaces[i]? = some v)
    (hmac : v.MAC = some mac) (htarget : v.Target = some target)
    (hnet : macMap mac.MAC = some networkName)
    (hhash : networkMap networkName = some hashedName)
    (hlen : 3 ≤ hashedName.length) :
    rewriteInterface macMap networkMap v =
        .returned
          { v with Target := some { target with Device := lit "tap" ++ hashedName.drop 3 } } ∧
      ∀ out, rewriteDomain macMap networkMap domainSpec = .returned out →
        ∃ v', out.Devices.Interfaces[i]? = some v' ∧
          v'.Target.map (fun t => t.Device) = some (lit "tap" ++ hashedName.drop 3) := by
  have hbody : rewriteInterface macMap networkMap v =
      .returned
        { v with Target := some { target with Device := lit "tap" ++ hashedName.drop 3 } } := by
    rw [rewriteInterface_resolved macMap networkMap v hmac htarget hnet hhash,
      newTAPIfName_of_le hlen]
  refine ⟨hbody, ?_⟩
  intro out hout
  rw [rewriteDomain_returned_iff] at hout
  obtain ⟨v', hv', hr⟩ := rewriteLoop_getElem? macMap networkMap _ _ hout.1 i v hi
  rw [hbody] at hr
  cases hr
  exact ⟨_, hv', rfl⟩

/-- Scenario of C1: status `(52:54:00:00:00:01, default)`, naming scheme
`default -> pod1234567`, interface `(52:54:00:00:00:01, vnet0)`; the loop
returns the descriptor whose interface has target `tap1234567`. -/
theorem rewrite_resolved_target_witness :
    rewriteDomain (generateNetworkMacMap scenarioVMI) scenarioScheme
        (domainOf [scenarioInterface]) =
          .returned (domainOf [{ scenarioInterface with
            Target := some { Device := lit "tap1234567", other := () } }]) ∧
      rewriteInterface (generateNetworkMacMap scenarioVMI) scenarioScheme scenarioInterface =
        .returned { scenarioInterface with
          Target := some { Device := lit "tap" ++ (lit "pod1234567").drop 3, other := () } } :=
  ⟨by decide,
    (rewrite_resolved_target (generateNetworkMacMap scenarioVMI) scenarioScheme
      (domainOf [scenarioInterface]) 0 scenarioInterface { MAC := mac01 }
      { Device := lit "vnet0", other := () } (lit "default") (lit "pod1234567")
      (by decide) (by decide) (by decide) (by decide) (by decide) (by decide)).1⟩

/-- C2: a device of the descriptor whose chain does not fully resolve (no
hardware address, or no target, or a hardware address that is not a key of
`macMap`, or a resolved network name that is not a key of `networkMap`) is
returned unchanged by the loop body, and in every descriptor returned by the
loop the device at that position is the input device, so its target is exactly
as it was, absent targets staying absent. -/
theorem rewrite_unresolved_target {Other : Type} (macMap networkMap : GoMap)
    (domainSpec : DomainSpec Other) (i : Nat) (v : Interface Other)
    (hi : domainSpec.Devices.Interfaces[i]? = some v)
    (h : v.MAC = none ∨ v.Target = none ∨
      (∃ mac, v.MAC = some mac ∧ macMap mac.MAC = none) ∨
      (∃ mac networkName, v.MAC = some mac ∧ macMap mac.MAC = some networkName ∧
        networkMap networkName = none)) :
    rewriteInterface macMap networkMap v = .returned v ∧
      ∀ out, rewriteDomain macMap networkMap domainSpec = .returned out →
        out.Devices.Interfaces[i]? = some v ∧
          ∃ v', out.Devices.Interfaces[i]? = some v' ∧ v'.Target = v.Target := by
  have hbody := rewriteInterface_unresolved macMap networkMap v h
  refine ⟨hbody, ?_⟩
  intro out hout
  rw [rewriteDomain_returned_iff] at hout
  obtain ⟨v', hv', hr⟩ := rewriteLoop_getElem? macMap networkMap _ _ hout.1 i v hi
  rw [hbody] at hr
  cases hr
  exact ⟨hv', _, hv', rfl⟩

/-- Scenario of C2: naming scheme `default -> pod1234567`, interface with no
hardware address and target `vnet0`; the loop returns the descriptor as it
was. -/
theorem rewrite_unresolved_target_witness :
    rewriteDomain (generateNetworkMacMap scenarioVMI) scenarioScheme
        (domainOf [scenarioInterfaceNoMAC]) = .returned (domainOf [scenarioInterfaceNoMAC]) ∧
      rewriteInterface (generateNetworkMacMap scenarioVMI) scenarioScheme
        scenarioInterfaceNoMAC = .returned scenarioInterfaceNoMAC :=
  ⟨by decide,
    (rewrite_unresolved_target (generateNetworkMacMap scenarioVMI) scenarioScheme
      (domainOf [scenarioInterfaceNoMAC]) 0 scenarioInterfaceNoMAC (by decide)
      (Or.inl (by decide))).1⟩

/-- C4: when the loop completes, the returned descriptor has the same number of
interface devices, and at every position the hardware address, the presence of
the target, the other fields of the target and the other fields of the device
equal those of the input device at that position; the non-interface devices and
the rest of the descriptor are unchanged. -/
theorem rewrite_frame {Other : Type} (macMap networkMap : GoMap)
    (domainSpec out : DomainSpec Other)
    (h : rewriteDomain macMap networkMap domainSpec = .returned out) :
    out.other = domainSpec.other ∧ out.Devices.other = domainSpec.Devices.other ∧
      out.Devices.Interfaces.length = domainSpec.Devices.Interfaces.length ∧
      ∀ (i : Nat) (v : Interface Other), domainSpec.Devices.Interfaces[i]? = some v →
        ∃ v', out.Devices.Interfaces[i]? = some v' ∧ v'.MAC = v.MAC ∧ v'.other = v.other ∧
          v'.Target.isSome = v.Target.isSome ∧
          v'.Target.map (fun t => t.other) = v.Target.map (fun t => t.other) := by
  rw [rewriteDomain_returned_iff] at h
  obtain ⟨hl, hd, ho⟩ := h
  refine ⟨ho, hd, rewriteLoop_length macMap networkMap _ _ hl, ?_⟩
  intro i v hi
  obtain ⟨v', hv', hr⟩ := rewriteLoop_getElem? macMap networkMap _ _ hl i v hi
  exact ⟨v', hv', rewriteInterface_frame macMap networkMap v v' hr⟩

/-- Scenario of C4: a descriptor with a resolving device followed by a device
without hardware address; the loop completes and the frame holds. -/
theorem rewrite_frame_witness :
    rewriteDomain (generateNetworkMacMap scenarioVMI) scenarioScheme
        (domainOf [scenarioInterface, scenarioInterfaceNoMAC]) =
          .returned (domainOf [{ scenarioInterface with
            Target := some { Device := lit "tap1234567", other := () } },
            scenarioInterfaceNoMAC]) ∧
      (domainOf [{ scenarioInterface with
          Target := some { Device := lit "tap1234567", other := () } },
          scenarioInterfaceNoMAC]).Devices.Interfaces.length =
        (domainOf [scenarioInterface, scenarioInterfaceNoMAC]).Devices.Interfaces.length :=
  ⟨by decide,
    (rewrite_frame (generateNetworkMacMap scenarioVMI) scenarioScheme
      (domainOf [scenarioInterface, scenarioInterfaceNoMAC])
      (domainOf [{ scenarioInterface with
        Target := some { Device := lit "tap1234567", other := () } },
        scenarioInterfaceNoMAC]) (by decide)).2.2.1⟩

/-- The hashed name `ab` of `shortScheme` makes the slice expression of line 176
panic: the loop does not complete. -/
theorem rewrite_short_hashed_name_panics :
    rewriteDomain (generateNetworkMacMap scenarioVMI) shortScheme
      (domainOf [scenarioInterface]) = .panicked (.sliceBounds 2) := by
  decide

/-- C5, amended: for every descriptor, every `macMap` and every `networkMap`
all of whose hashed names have at least three bytes, the loop completes without
a panic, and every returned device is either the input device at its position
or that device with the device name of its target replaced by
`"tap" + hashedName[3:]`. -/
theorem rewrite_completes {Other : Type} (macMap networkMap : GoMap)
    (domainSpec : DomainSpec Other)
    (hlen : ∀ networkName hashedName, networkMap networkName = some hashedName →
      3 ≤ hashedName.length) :
    ∃ out, rewriteDomain macMap networkMap domainSpec = .returned out ∧
      List.Forall₂
        (fun v v' => v' = v ∨ ∃ (target : InterfaceTarget Other) (hashedName : GoString),
          v.Target = some target ∧ 3 ≤ hashedName.length ∧
          v' = { v with
            Target := some { target with Device := lit "tap" ++ hashedName.drop 3 } })
        domainSpec.Devices.Interfaces out.Devices.Interfaces := by
  obtain ⟨ifaces, hl⟩ := (rewriteLoop_completes_iff macMap networkMap
    domainSpec.Devices.Interfaces).mpr
      (fun v _ => rewriteInterface_completes macMap networkMap hlen v)
  obtain ⟨out, hout⟩ := (rewriteDomain_completes_iff macMap networkMap domainSpec).mpr ⟨ifaces, hl⟩
  refine ⟨out, hout, ?_⟩
  rw [rewriteDomain_returned_iff] at hout
  have h := (rewriteLoop_returned_iff macMap networkMap _ _).mp hout.1
  exact h.imp (fun v v' hv => rewriteInterface_cases macMap networkMap v v' hv)

/-- All hashed names of `scenarioScheme` have at least three bytes. -/
theorem scenarioScheme_length (networkName hashedName : GoString)
    (h : scenarioScheme networkName = some hashedName) : 3 ≤ hashedName.length := by
  unfold scenarioScheme GoMap.assign GoMap.make at h
  split at h
  · cases h
    decide
  · cases h

/-- Scenario of C5: with the naming scheme `default -> pod1234567` the loop
completes on the descriptor with the interface `(52:54:00:00:00:01, vnet0)`. -/
theorem rewrite_completes_witness :
    ∃ out, rewriteDomain (generateNetworkMacMap scenarioVMI) scenarioScheme
        (domainOf [scenarioInterface]) = .returned out ∧
      List.Forall₂
        (fun v v' => v' = v ∨ ∃ (target : InterfaceTarget Unit) (hashedName : GoString),
          v.Target = some target ∧ 3 ≤ hashedName.length ∧
          v' = { v with
            Target := some { target with Device := lit "tap" ++ hashedName.drop 3 } })
        (domainOf [scenarioInterface]).Devices.Interfaces out.Devices.Interfaces :=
  rewrite_completes (generateNetworkMacMap scenarioVMI) scenarioScheme
    (domainOf [scenarioInterface]) scenarioScheme_length

/-- C10: for every descriptor, every `macMap` and every `networkMap` all of
whose hashed names have at least three bytes, the loop completes, and running
it again with the same two maps on the descriptor it returned returns that
descriptor unchanged. -/
theorem rewrite_idempotent {Other : Type} (macMap networkMap : GoMap)
    (domainSpec : DomainSpec Other)
    (hlen : ∀ networkName hashedName, networkMap networkName = some hashedName →
      3 ≤ hashedName.length) :
    ∃ out, rewriteDomain macMap networkMap domainSpec = .returned out ∧
      rewriteDomain macMap networkMap out = .returned out := by
  obtain ⟨ifaces, hl⟩ := (rewriteLoop_completes_iff macMap networkMap
    domainSpec.Devices.Interfaces).mpr
      (fun v _ => rewriteInterface_completes macMap networkMap hlen v)
  obtain ⟨out, hout⟩ := (rewriteDomain_completes_iff macMap networkMap domainSpec).mpr ⟨ifaces, hl⟩
  refine ⟨out, hout, ?_⟩
  rw [rewriteDomain_returned_iff] at hout ⊢
  refine ⟨?_, rfl, rfl⟩
  have h := (rewriteLoop_returned_iff macMap networkMap _ _).mp hout.1
  rw [rewriteLoop_returned_iff]
  generalize out.Devices.Interfaces = l' at h
  generalize domainSpec.Devices.Interfaces = l at h
  induction h with
  | nil => exact List.Forall₂.nil
  | cons h1 _ ih => exact List.Forall₂.cons (rewriteInterface_idem macMap networkMap _ _ h1) ih

/-- Scenario of C10: the descriptor with the interface `(52:54:00:00:00:01,
vnet0)` is rewritten to target `tap1234567`, and rewriting the result again
leaves it as it is. -/
theorem rewrite_idempotent_witness :
    (∃ out, rewriteDomain (generateNetworkMacMap scenarioVMI) scenarioScheme
        (domainOf [scenarioInterface]) = .returned out ∧
      rewriteDomain (generateNetworkMacMap scenarioVMI) scenarioScheme out = .returned out) ∧
    rewriteDomain (generateNetworkMacMap scenarioVMI) scenarioScheme
      (domainOf [{ scenarioInterface with
        Target := some { Device := lit "tap1234567", other := () } }]) =
      .returned (domainOf [{ scenarioInterface with
        Target := some { Device := lit "tap1234567", other := () } }]) :=
  ⟨rewrite_idempotent (generateNetworkMacMap scenarioVMI) scenarioScheme
    (domainOf [scenarioInterface]) scenarioScheme_length, by decide⟩

/-! ## Properties of `generateNetworkMacMap` -/

/-- C3: `generateNetworkMacMap` is a total function of the instance model; the
map it returns sends a hardware address to a name exactly when that name is the
network name of the last status entry carrying the address, its keys are
exactly the hardware addresses occurring in the status list, and for an empty
status list it is the empty map. -/
theorem generateNetworkMacMap_last_wins {Other : Type} (vmi : VirtualMachineInstance Other)
    (k : GoString) :
    (∀ name, generateNetworkMacMap vmi k = some name ↔
      ∃ pre s post, vmi.Status.Interfaces = pre ++ s :: post ∧ s.MAC = k ∧ s.Name = name ∧
        ∀ t ∈ post, t.MAC ≠ k) ∧
    ((generateNetworkMacMap vmi k).isSome = true ↔ ∃ s ∈ vmi.Status.Interfaces, s.MAC = k) ∧
    generateNetworkMacMap
      { vmi with Status := { vmi.Status with Interfaces := [] } } = GoMap.make := by
  refine ⟨?_, ?_, rfl⟩
  · intro name
    unfold generateNetworkMacMap
    rw [generateNetworkMacMapLoop_spec]
    simp [GoMap.make]
  · unfold generateNetworkMacMap
    rw [generateNetworkMacMapLoop_isSome]
    simp [GoMap.make]

/-- Evaluation of `generateNetworkMacMap` on a status list with a duplicated
hardware address: the later entry wins, and an address that does not occur is
not a key. -/
theorem generateNetworkMacMap_duplicate_example :
    generateNetworkMacMap
        { scenarioVMI with Status := { Interfaces := duplicateStatuses, other := () } } mac01 =
          some (lit "third") ∧
      generateNetworkMacMap
        { scenarioVMI with Status := { Interfaces := duplicateStatuses, other := () } }
          (lit "52:54:00:00:00:02") = some (lit "second") ∧
      generateNetworkMacMap
        { scenarioVMI with Status := { Interfaces := duplicateStatuses, other := () } }
          (lit "52:54:00:00:00:03") = none := by
  decide

/-! ## The rewrite depends on the hardware address only -/

/-- C6: for two descriptors of the same length that agree, position by
position, on the hardware address of each interface and on whether its target
is present (target device names and all other fields being arbitrary), the loop
completes on one exactly when it completes on the other, and when it does,
every device whose chain resolves carries the same new target device name
`"tap" + hashedName[3:]` in both returned descriptors. -/
theorem rewrite_by_hardware_address {Other : Type} (macMap networkMap : GoMap)
    (d₁ d₂ : DomainSpec Other)
    (hagree : List.Forall₂ (fun a b => a.MAC = b.MAC ∧ a.Target.isSome = b.Target.isSome)
      d₁.Devices.Interfaces d₂.Devices.Interfaces) :
    ((∃ o₁, rewriteDomain macMap networkMap d₁ = .returned o₁) ↔
        ∃ o₂, rewriteDomain macMap networkMap d₂ = .returned o₂) ∧
      ∀ o₁ o₂, rewriteDomain macMap networkMap d₁ = .returned o₁ →
        rewriteDomain macMap networkMap d₂ = .returned o₂ →
        ∀ (i : Nat) (v : Interface Other) (mac : MAC) (target : InterfaceTarget Other)
          (networkName hashedName : GoString),
          d₁.Devices.Interfaces[i]? = some v → v.MAC = some mac → v.Target = some target →
          macMap mac.MAC = some networkName → networkMap networkName = some hashedName →
          ∃ v₁ v₂, o₁.Devices.Interfaces[i]? = some v₁ ∧ o₂.Devices.Interfaces[i]? = some v₂ ∧
            v₁.Target.map (fun t => t.Device) = some (lit "tap" ++ hashedName.drop 3) ∧
            v₂.Target.map (fun t => t.Device) = v₁.Target.map (fun t => t.Device) := by
  constructor
  · rw [rewriteDomain_completes_iff, rewriteDomain_completes_iff, rewriteLoop_completes_iff,
      rewriteLoop_completes_iff]
    simp only [rewriteInterface_completes_iff]
    revert hagree
    generalize d₁.Devices.Interfaces = l₁
    generalize d₂.Devices.Interfaces = l₂
    intro hagree
    induction hagree with
    | nil => simp
    | cons hab _ ih =>
      simp only [List.forall_mem_cons, ih, hab.1, hab.2]
  · intro o₁ o₂ h₁ h₂ i v mac target networkName hashedName hi hM hT hN hH
    rw [rewriteDomain_returned_iff] at h₁ h₂
    obtain ⟨v₁, hv₁, hr₁⟩ := rewriteLoop_getElem? macMap networkMap _ _ h₁.1 i v hi
    obtain ⟨w, hw, hMw, hTw⟩ := forall₂_getElem? hagree i v hi
    obtain ⟨v₂, hv₂, hr₂⟩ := rewriteLoop_getElem? macMap networkMap _ _ h₂.1 i w hw
    have hTw' : w.Target.isSome = true := by rw [← hTw, hT]; rfl
    obtain ⟨target', hT'⟩ := Option.isSome_iff_exists.mp hTw'
    obtain ⟨_, e₁⟩ := rewriteInterface_resolved_returned macMap networkMap v v₁ hM hT hN hH hr₁
    obtain ⟨_, e₂⟩ := rewriteInterface_resolved_returned macMap networkMap w v₂
      (hMw ▸ hM) hT' hN hH hr₂
    refine ⟨v₁, v₂, hv₁, hv₂, ?_, ?_⟩
    · rw [e₁]; rfl
    · rw [e₁, e₂]; rfl

/-- Scenario of C6: the interfaces `(52:54:00:00:00:01, vnet0)` and
`(52:54:00:00:00:01, eth7)` agree on the hardware address and differ in the
target device name; the loop completes on both and both get `tap1234567`. -/
theorem rewrite_by_hardware_address_witness :
    ((∃ o₁, rewriteDomain (generateNetworkMacMap scenarioVMI) scenarioScheme
          (domainOf [scenarioInterface]) = .returned o₁) ↔
        ∃ o₂, rewriteDomain (generateNetworkMacMap scenarioVMI) scenarioScheme
          (domainOf [scenarioInterfaceOtherName]) = .returned o₂) ∧
      rewriteDomain (generateNetworkMacMap scenarioVMI) scenarioScheme
          (domainOf [scenarioInterfaceOtherName]) =
        rewriteDomain (generateNetworkMacMap scenarioVMI) scenarioScheme
          (domainOf [scenarioInterface]) ∧
      rewriteDomain (generateNetworkMacMap scenarioVMI) scenarioScheme
          (domainOf [scenarioInterface]) =
        .returned (domainOf [{ scenarioInterface with
          Target := some { Device := lit "tap1234567", other := () } }]) :=
  ⟨(rewrite_by_hardware_address (generateNetworkMacMap scenarioVMI) scenarioScheme
      (domainOf [scenarioInterface]) (domainOf [scenarioInterfaceOtherName])
      (List.Forall₂.cons ⟨rfl, rfl⟩ List.Forall₂.nil)).1, by decide, by decide⟩

/-! ## `parseCommandLineArgs` -/

/-- C9: the version check of `parseCommandLineArgs` returns the given string
with a nil error exactly when the string is `v1alpha1` or `v1alpha2`; for every
other string it returns the empty string and an error, and for the empty string
(flag not given) that error is the missing-parameter error. -/
theorem parseCommandLineArgs_version (version : GoString) :
    (parseCommandLineArgs version = (version, none) ↔
        version = lit "v1alpha1" ∨ version = lit "v1alpha2") ∧
      ((parseCommandLineArgs version).2 = none ↔
        version = lit "v1alpha1" ∨ version = lit "v1alpha2") ∧
      ((version = lit "v1alpha1" ∨ version = lit "v1alpha2") ∨
        ∃ e, parseCommandLineArgs version = ([], some e)) ∧
      parseCommandLineArgs [] = ([], some .missingVersion) := by
  have h1 : lit "v1alpha1" ≠ [] := by decide
  have h2 : lit "v1alpha2" ≠ [] := by decide
  by_cases he : version = []
  · subst he
    simp [parseCommandLineArgs, h1.symm, h2.symm]
  · by_cases hs : version = lit "v1alpha1" ∨ version = lit "v1alpha2"
    · have hl : supportedLoop version supportedVersions = true := by
        rcases hs with hs | hs <;> subst hs <;> decide
      simp [parseCommandLineArgs, he, hl, hs]
    · have hl : supportedLoop version supportedVersions = false := by
        have hs' := not_or.mp hs
        simp [supportedLoop, supportedVersions, Ne.symm hs'.1, Ne.symm hs'.2]
      simp [parseCommandLineArgs, he, hl, hs]

/-! ## `onDefineDomain` -/

/-- When `xml.Unmarshal` returns an error, `onDefineDomain` panics with it. -/
theorem onDefineDomain_xml_error {Other : Type} (L : Libs Other) (vmiJSON domainXML : GoString)
    (err : GoError) (h : (L.xmlUnmarshal domainXML).2 = some err) :
    onDefineDomain L vmiJSON domainXML = .panicked err := by
  unfold onDefineDomain
  cases hx : L.xmlUnmarshal domainXML with
  | mk domainSpec e =>
    rw [hx] at h
    simp only at h
    subst h
    rfl

/-- Whenever `onDefineDomain` returns, its error is nil: the error branch of
`OnDefineDomain` (lines 62-65) is never taken. -/
theorem onDefineDomain_returned_error {Other : Type} (L : Libs Other)
    (vmiJSON domainXML newDomainXML : GoString) (err : Option GoError)
    (h : onDefineDomain L vmiJSON domainXML = .returned (newDomainXML, err)) : err = none := by
  unfold onDefineDomain at h
  split at h
  · cases h
  · simp only at h
    split at h
    · cases h
    · split at h
      · cases h
      · cases h
        rfl

/-- C8, evaluation at the failing input: on the truncated domain descriptor
`<domain`, for which `xml.Unmarshal` returns an error, `onDefineDomain` panics
instead of returning that error with no bytes, and so does `OnDefineDomain`
instead of returning the error with a nil result. -/
theorem onDefineDomain_truncated_xml_panics :
    (scenarioLibs.xmlUnmarshal truncatedDomainXML).2 =
        some (.library (lit "XML syntax error on line 1: unexpected EOF")) ∧
      onDefineDomain scenarioLibs scenarioVMIJSON truncatedDomainXML =
        .panicked (.library (lit "XML syntax error on line 1: unexpected EOF")) ∧
      v1Alpha2Server.OnDefineDomain scenarioLibs
          { Vmi := scenarioVMIJSON, DomainXML := truncatedDomainXML } =
        .panicked (.library (lit "XML syntax error on line 1: unexpected EOF")) ∧
      onDefineDomain scenarioLibs scenarioVMIJSON truncatedDomainXML ≠
        .returned ([], some (.library (lit "XML syntax error on line 1: unexpected EOF"))) := by
  have hx : (scenarioLibs.xmlUnmarshal truncatedDomainXML).2 =
      some (.library (lit "XML syntax error on line 1: unexpected EOF")) := by
    simp [scenarioLibs]
  have hp := onDefineDomain_xml_error scenarioLibs scenarioVMIJSON truncatedDomainXML _ hx
  refine ⟨hx, hp, ?_, ?_⟩
  · simp [v1Alpha2Server.OnDefineDomain, hp]
  · rw [hp]
    exact fun h => Outcome.noConfusion h

/-- The instance descriptor `typeErrorVMIJSON` fails to decode, yet the target
of `json.Unmarshal` holds its interface status, so `onDefineDomain` rewrites the
interface: the returned bytes encode target `tap37a8eec1ce1`, not the decoded
descriptor with target `vnet0`. -/
theorem onDefineDomain_failed_decode_rewrites :
    (scenarioLibs.xmlUnmarshal scenarioDomainXML).2 = none ∧
      (scenarioLibs.jsonUnmarshal typeErrorVMIJSON).2 ≠ none ∧
      onDefineDomain scenarioLibs typeErrorVMIJSON scenarioDomainXML =
        .returned (lit "tap37a8eec1ce1", none) ∧
      (scenarioLibs.xmlMarshal (scenarioLibs.xmlUnmarshal scenarioDomainXML).1).1 =
        lit "vnet0" ∧
      onDefineDomain scenarioLibs typeErrorVMIJSON scenarioDomainXML ≠
        .returned ((scenarioLibs.xmlMarshal (scenarioLibs.xmlUnmarshal scenarioDomainXML).1).1,
          none) := by
  decide

/-- C7, amended: when the domain descriptor decodes successfully and the
instance model left by `json.Unmarshal` holds no interface statuses (as the
zero-valued model does, whether or not decoding failed), the MAC map is empty,
the loop returns the decoded descriptor unchanged, and, the encoding of that
descriptor succeeding with bytes `newDomainXML`, `onDefineDomain` returns
`newDomainXML` with a nil error. -/
theorem onDefineDomain_no_statuses {Other : Type} (L : Libs Other)
    (vmiJSON domainXML newDomainXML : GoString) (domainSpec : DomainSpec Other)
    (hxml : L.xmlUnmarshal domainXML = (domainSpec, none))
    (hjson : (L.jsonUnmarshal vmiJSON).1.Status.Interfaces = [])
    (hmarshal : L.xmlMarshal domainSpec = (newDomainXML, none)) :
    generateNetworkMacMap (L.jsonUnmarshal vmiJSON).1 = GoMap.make ∧
      rewriteDomain (generateNetworkMacMap (L.jsonUnmarshal vmiJSON).1)
        (L.CreateHashedNetworkNameScheme (L.jsonUnmarshal vmiJSON).1.Spec.Networks)
        domainSpec = .returned domainSpec ∧
      onDefineDomain L vmiJSON domainXML = .returned (newDomainXML, none) := by
  have hmap : generateNetworkMacMap (L.jsonUnmarshal vmiJSON).1 = GoMap.make := by
    unfold generateNetworkMacMap
    rw [hjson]
    rfl
  have hrw : rewriteDomain (generateNetworkMacMap (L.jsonUnmarshal vmiJSON).1)
      (L.CreateHashedNetworkNameScheme (L.jsonUnmarshal vmiJSON).1.Spec.Networks)
      domainSpec = .returned domainSpec := by
    rw [rewriteDomain_returned_iff, hmap]
    refine ⟨?_, rfl, rfl⟩
    rw [rewriteLoop_returned_iff]
    generalize domainSpec.Devices.Interfaces = l
    induction l with
    | nil => exact List.Forall₂.nil
    | cons v rest ih =>
      refine List.Forall₂.cons ?_ ih
      rcases chain_cases GoMap.make
        (L.CreateHashedNetworkNameScheme (L.jsonUnmarshal vmiJSON).1.Spec.Networks) v with
        hu | ⟨mac, _, networkName, _, _, _, hN, _⟩
      · exact rewriteInterface_unresolved _ _ v hu
      · cases hN
  refine ⟨hmap, hrw, ?_⟩
  unfold onDefineDomain
  rw [hxml]
  simp only [hrw, hmarshal]

/-- Scenario of C7: the instance descriptor made of a lone opening brace is not
well-formed JSON and leaves the zero-valued model; the call returns the encoding of the decoded
descriptor, target `vnet0` unchanged. -/
theorem onDefineDomain_no_statuses_witness :
    (scenarioLibs.jsonUnmarshal syntaxErrorVMIJSON).2 ≠ none ∧
      onDefineDomain scenarioLibs syntaxErrorVMIJSON scenarioDomainXML =
        .returned (lit "vnet0", none) :=
  ⟨by decide,
    (onDefineDomain_no_statuses scenarioLibs syntaxErrorVMIJSON scenarioDomainXML (lit "vnet0")
      (domainOf [scenarioInterface]) (by decide) (by decide) (by decide)).2.2⟩

end Migration
